import Mathlib

/-!
Shallow embedding of the ElevenLabs ASR provider
(`core/providers/asr/elevenlabs.py`): the Opus decode loop,
the WAV container write (`save_audio_to_file`), and the
transcription pipeline (`speech_to_text`) with its existence
check, multipart request construction, HTTP response mapping
and guaranteed cleanup block.

External effects are modelled explicitly:
* the Opus decoder is an arbitrary stateful function
  `S → Packet → S × Option Pcm` (`none` models a caught
  `OpusError` for that packet);
* storage is an association list of path/file pairs threaded
  through the pipeline;
* the HTTP layer is an arbitrary function from the built request
  to either a response (status code, `.text` body, and the
  behaviour of `.json()`) or a raised transport exception;
* a possible exception inside the WAV-writing block is modelled
  by an `Option String` parameter (`none` = the write succeeds).
-/

namespace ElevenLabsASR

/-- One compressed Opus packet: an opaque byte buffer. -/
abbrev Packet := List UInt8

/-- One decoded PCM frame as raw bytes. -/
abbrev Pcm := List UInt8

/-- Behaviour of the stateful Opus decoder: from a decoder state and a
packet, the next decoder state and either a decoded frame or `none`
(the decoder raised `OpusError`, which the loop catches and logs). -/
abbrev DecodeFn (S : Type) := S → Packet → S × Option Pcm

/-- The decode loop of `save_audio_to_file`: each packet is decoded with
the running decoder state; a successful decode appends one frame to
`pcm_data`; a decode error contributes nothing and the loop continues
with the remaining packets. -/
def decodeLoop {S : Type} (dec : DecodeFn S) : S → List Packet → S × List Pcm
  | s, [] => (s, [])
  | s, p :: ps =>
    match dec s p with
    | (s2, some f) =>
      let r := decodeLoop dec s2 ps
      (r.1, f :: r.2)
    | (s2, none) => decodeLoop dec s2 ps

/-- Number of packets of the list that decode successfully, starting
from decoder state `s`. -/
def countSuccess {S : Type} (dec : DecodeFn S) : S → List Packet → Nat
  | _, [] => 0
  | s, p :: ps =>
    match dec s p with
    | (s2, some _) => countSuccess dec s2 ps + 1
    | (s2, none) => countSuccess dec s2 ps

/-- Size in bytes of the standard linear-PCM WAV header written by the
`wave` module (RIFF chunk 12 + fmt chunk 24 + data chunk header 8). -/
def wavHeaderSize : Nat := 44

/-- Bytes per decoded frame: 960 samples, 2 bytes per 16-bit sample. -/
def frameBytes : Nat := 960 * 2

/-- The WAV container written by `save_audio_to_file`: header
parameters set via `setnchannels` / `setsampwidth` / `setframerate`,
followed by the concatenated frame bytes given to `writeframes`. -/
structure WavFile where
  nchannels : Nat
  sampwidth : Nat
  framerate : Nat
  frames : List UInt8
  deriving Repr, DecidableEq

/-- Total byte length of the serialized container: header plus data. -/
def WavFile.byteLength (w : WavFile) : Nat := wavHeaderSize + w.frames.length

/-- Storage: the temp directory contents, as path/file pairs. -/
abbrev Storage := List (String × WavFile)

/-- Model of `os.path.exists`. -/
def Storage.pathExists (st : Storage) (p : String) : Bool :=
  st.any (fun e => e.1 == p)

/-- Model of creating a file at `p` with contents `w`. -/
def Storage.write (st : Storage) (p : String) (w : WavFile) : Storage :=
  (p, w) :: st

/-- Model of `os.remove p` (total model of storage: the delete of the
pipeline-private file succeeds). -/
def Storage.remove (st : Storage) (p : String) : Storage :=
  st.filter (fun e => e.1 != p)

/-- The file name generated for one invocation:
`f"elevenlabs_asr_{session_id}_{uuid.uuid4()}.wav"`. The random token
is a parameter (`uuid`) of the model. -/
def audioFileName (session_id uuid : String) : String :=
  "elevenlabs_asr_" ++ session_id ++ "_" ++ uuid ++ ".wav"

/-- `os.path.join(self.output_dir, file_name)`. -/
def audioFilePath (output_dir session_id uuid : String) : String :=
  output_dir ++ "/" ++ audioFileName session_id uuid

/-- `save_audio_to_file`: decode all packets (skipping packets whose
decode raises), then write a 1-channel, 16-bit, 16 kHz WAV file holding
the concatenation of the decoded frames, and return its path.
`wavWriteErr = some e` models an exception raised inside the
`with wave.open(...)` block (the file was created at open, then the
exception propagates out of the function); `none` models a successful
write. -/
def save_audio_to_file {S : Type} (dec : DecodeFn S) (s0 : S)
    (output_dir session_id uuid : String) (wavWriteErr : Option String)
    (opus_data : List Packet) (st : Storage) :
    Except String (String × Storage) :=
  let file_path := audioFilePath output_dir session_id uuid
  let pcm_data := (decodeLoop dec s0 opus_data).2
  let wav : WavFile :=
    { nchannels := 1, sampwidth := 2, framerate := 16000,
      frames := pcm_data.flatten }
  match wavWriteErr with
  | some e => .error e
  | none => .ok (file_path, st.write file_path wav)

/-- Provider configuration, as read in `__init__`. -/
structure Config where
  api_key : String
  model_id : String := "scribe_v1"
  base_url : String := "https://api.elevenlabs.io/v1/speech-to-text"
  output_dir : String := "temp/audio"

/-- The keyword options of `speech_to_text`, with their defaults. -/
structure TranscriptionOptions where
  language_code : Option String := none
  tag_audio_events : Bool := true
  num_speakers : Option Int := none
  timestamps_granularity : String := "word"
  diarize : Bool := false
  enable_logging : Bool := true

/-- `str.strip()` on the character list: drop leading and trailing
whitespace. -/
def stripChars (l : List Char) : List Char :=
  ((l.dropWhile Char.isWhitespace).reverse.dropWhile Char.isWhitespace).reverse

/-- Python `str.strip()` with no arguments: remove surrounding
whitespace. -/
def pyStrip (s : String) : String := ⟨stripChars s.data⟩

/-- `str(b).lower()` for a Python bool. -/
def pyStrBool (b : Bool) : String := if b then "true" else "false"

/-- Python truthiness of an `Optional[str]`: `None` and `""` are falsy. -/
def truthyOptStr : Option String → Bool
  | none => false
  | some s => !(s == "")

/-- Python truthiness of an `Optional[int]`: `None` and `0` are falsy. -/
def truthyOptInt : Option Int → Bool
  | none => false
  | some n => !(n == 0)

/-- The `data` dict of form fields, in insertion order: the six fixed
fields, then `language_code` and `num_speakers`, each added only when
the corresponding option is truthy. -/
def buildFormData (model_id : String) (o : TranscriptionOptions) :
    List (String × String) :=
  [("model_id", model_id),
   ("enable_logging", pyStrBool o.enable_logging),
   ("tag_audio_events", pyStrBool o.tag_audio_events),
   ("timestamps_granularity", o.timestamps_granularity),
   ("diarize", pyStrBool o.diarize),
   ("file_format", "pcm_s16le_16")]
  ++ (if truthyOptStr o.language_code then
        [("language_code", o.language_code.getD "")] else [])
  ++ (if truthyOptInt o.num_speakers then
        [("num_speakers", toString (o.num_speakers.getD 0))] else [])

/-- The request headers: `{"xi-api-key": self.api_key}`. -/
def buildHeaders (api_key : String) : List (String × String) :=
  [("xi-api-key", api_key)]

/-- The HTTP POST built by `speech_to_text`: URL, headers, form
fields, and the file part named `file` holding the artifact. -/
structure Request where
  url : String
  headers : List (String × String)
  data : List (String × String)
  fileFieldName : String
  filePath : String
  deriving Repr, DecidableEq

/-- The request `speech_to_text` sends for a given artifact path. -/
def requestOf (cfg : Config) (o : TranscriptionOptions)
    (audio_file_path : String) : Request :=
  { url := cfg.base_url,
    headers := buildHeaders cfg.api_key,
    data := buildFormData cfg.model_id o,
    fileFieldName := "file",
    filePath := audio_file_path }

/-- A received HTTP response: `status_code`, the behaviour of
`.json()` (either the parsed object, modelled as its string fields, or
a raised parse exception), and `.text`. -/
structure HttpResp where
  status_code : Nat
  jsonFields : Except String (List (String × String))
  text : String

/-- Behaviour of the HTTP layer: `requests.post` on the built request
either returns a response or raises a transport exception (`.error`
carries `str(e)`). -/
abbrev HttpFn := Request → Except String HttpResp

/-- The `(text, error)` pair returned to the caller. -/
abbrev Outcome := Option String × Option String

/-- Result of one pipeline run that returned normally: the outcome
pair, the final storage, and the request that was sent (`none` when
the pipeline short-circuited before any network I/O). -/
structure RunResult where
  outcome : Outcome
  storage : Storage
  sent : Option Request
  deriving Repr, DecidableEq

/-- The pipeline from the existence check down: `if not
os.path.exists(...)` short-circuits to `(None, None)` with no request
built or sent; otherwise the request is built and posted, the response
is mapped (200 ⇒ trimmed `text` field of the JSON body, default `""`;
other status ⇒ `(None, response.text)`; raised exception ⇒
`(None, str(e))`), and the `finally` block removes the artifact on
every one of those exit paths. -/
def transcribePhase (http : HttpFn) (cfg : Config)
    (o : TranscriptionOptions) (audio_file_path : String)
    (st : Storage) : RunResult :=
  if st.pathExists audio_file_path = false then
    { outcome := (none, none), storage := st, sent := none }
  else
    let req := requestOf cfg o audio_file_path
    let out : Outcome :=
      match http req with
      | .ok resp =>
        if resp.status_code == 200 then
          match resp.jsonFields with
          | .ok fields => (some (pyStrip ((fields.lookup "text").getD "")), none)
          | .error e => (none, some e)
        else
          (none, some resp.text)
      | .error e => (none, some e)
    { outcome := out, storage := st.remove audio_file_path, sent := some req }

/-- `speech_to_text`: save the audio to a file (an exception there
propagates: the call is outside the try block), then run the
transcription phase on the returned path. -/
def speech_to_text {S : Type} (dec : DecodeFn S) (s0 : S)
    (http : HttpFn) (cfg : Config) (session_id uuid : String)
    (o : TranscriptionOptions) (wavWriteErr : Option String)
    (opus_data : List Packet) (st : Storage) :
    Except String RunResult :=
  match save_audio_to_file dec s0 cfg.output_dir session_id uuid
      wavWriteErr opus_data st with
  | .error e => .error e
  | .ok (audio_file_path, st1) =>
    .ok (transcribePhase http cfg o audio_file_path st1)

/-- Decidable equality of `Except` values, used to evaluate the model
on concrete inputs. -/
instance {ε α : Type} [DecidableEq ε] [DecidableEq α] :
    DecidableEq (Except ε α) := fun x y =>
  match x, y with
  | .error a, .error b =>
    if h : a = b then .isTrue (h ▸ rfl)
    else .isFalse (fun hc => h (Except.error.inj hc))
  | .error _, .ok _ => .isFalse (fun hc => Except.noConfusion hc)
  | .ok _, .error _ => .isFalse (fun hc => Except.noConfusion hc)
  | .ok a, .ok b =>
    if h : a = b then .isTrue (h ▸ rfl)
    else .isFalse (fun hc => h (Except.ok.inj hc))

/-! Helper lemmas about the storage and decode models. -/

theorem pathExists_write (st : Storage) (p : String) (w : WavFile) :
    (st.write p w).pathExists p = true := by
  simp [Storage.write, Storage.pathExists]

theorem pathExists_remove (st : Storage) (p : String) :
    (st.remove p).pathExists p = false := by
  induction st with
  | nil => rfl
  | cons e st ih =>
    by_cases h : e.1 = p
    · simp [Storage.remove, Storage.pathExists, h] at ih ⊢
    · simp [Storage.remove, Storage.pathExists, h] at ih ⊢

theorem decodeLoop_length {S : Type} (dec : DecodeFn S) :
    ∀ (s : S) (ps : List Packet),
      (decodeLoop dec s ps).2.length = countSuccess dec s ps := by
  intro s ps
  induction ps generalizing s with
  | nil => rfl
  | cons p ps ih =>
    simp only [decodeLoop, countSuccess]
    rcases h : dec s p with ⟨s2, f⟩
    cases f with
    | some f => simp [ih]
    | none => simp [ih]

theorem decodeLoop_flatten_length {S : Type} (dec : DecodeFn S)
    (hf : ∀ (s : S) (p : Packet) (f : Pcm),
      (dec s p).2 = some f → f.length = frameBytes) :
    ∀ (s : S) (ps : List Packet),
      ((decodeLoop dec s ps).2.flatten).length
        = countSuccess dec s ps * frameBytes := by
  intro s ps
  induction ps generalizing s with
  | nil => simp [decodeLoop, countSuccess]
  | cons p ps ih =>
    simp only [decodeLoop, countSuccess]
    rcases h : dec s p with ⟨s2, f⟩
    cases f with
    | some f =>
      have hl : f.length = frameBytes := hf s p f (by simp [h])
      simp [List.flatten_cons, hl, ih, Nat.succ_mul, Nat.add_comm]
    | none => simp [ih]

/-! Concrete instances used to evaluate the model on small inputs. -/

/-- A demo decoder: counts calls in its state, rejects empty packets
(modelling a caught `OpusError`), and decodes any other packet to a
short two-byte frame. -/
def demoDec : DecodeFn Nat := fun s p =>
  (s + 1, if p.length == 0 then none else some [7, 7])

/-- A demo decoder producing full 1920-byte all-zero (silence) frames
for every nonempty packet. -/
def silentDec : DecodeFn Nat := fun s p =>
  (s + 1, if p.length == 0 then none else some (List.replicate frameBytes 0))

/-- A demo configuration. -/
def demoCfg : Config := { api_key := "secret" }

/-- The default options. -/
def demoOpts : TranscriptionOptions := {}

/-- A 200 response whose body is `{"text": " hello world "}`. -/
def resp200 : HttpResp :=
  { status_code := 200,
    jsonFields := .ok [("text", " hello world ")],
    text := "ok" }

/-- A remote that answers 200 with body `{"text": " hello world "}`. -/
def http200 : HttpFn := fun _ => .ok resp200

/-- A 500 response with body `rate limited`. -/
def resp500 : HttpResp :=
  { status_code := 500,
    jsonFields := .error "invalid json",
    text := "rate limited" }

/-- A remote that answers 500 with body `rate limited`. -/
def http500 : HttpFn := fun _ => .ok resp500

/-- A transport that raises on every request. -/
def httpDown : HttpFn := fun _ => .error "connection refused"

/-- C1: for every invocation of `speech_to_text` that returns (any
decoder behaviour, any HTTP behaviour, so every outcome branch:
success, remote failure, transport failure, precondition failure), the
transient artifact path does not exist on storage after the pipeline
returns: the `finally` block removes the file after the request on
every exit path. -/
theorem C1_artifact_absent_after_return {S : Type} (dec : DecodeFn S)
    (s0 : S) (http : HttpFn) (cfg : Config) (session_id uuid : String)
    (o : TranscriptionOptions) (wavWriteErr : Option String)
    (opus_data : List Packet) (st : Storage) (r : RunResult)
    (h : speech_to_text dec s0 http cfg session_id uuid o wavWriteErr
      opus_data st = .ok r) :
    r.storage.pathExists (audioFilePath cfg.output_dir session_id uuid)
      = false
    ∧ ∀ (p : String) (st2 : Storage),
        ((transcribePhase http cfg o p st2).storage).pathExists p
          = false := by
  constructor
  · cases wavWriteErr with
    | some e => simp [speech_to_text, save_audio_to_file] at h
    | none =>
      simp only [speech_to_text, save_audio_to_file, Except.ok.injEq] at h
      subst h
      simp [transcribePhase, pathExists_write, pathExists_remove]
  · intro p st2
    by_cases hex : st2.pathExists p = false
    · simp [transcribePhase, hex]
    · simp [transcribePhase, hex, pathExists_remove]

/-- Witness for C1: a concrete successful run; the artifact path is
absent from the final storage. -/
theorem C1_witness :
    (speech_to_text demoDec 0 http200 demoCfg "s" "u" demoOpts none
        [[1]] [] = .ok
          ((speech_to_text demoDec 0 http200 demoCfg "s" "u" demoOpts
            none [[1]] []).toOption.getD ⟨(none, none), [], none⟩))
    ∧ (((speech_to_text demoDec 0 http200 demoCfg "s" "u" demoOpts none
        [[1]] []).toOption.getD ⟨(none, none), [], none⟩).storage.pathExists
          (audioFilePath demoCfg.output_dir "s" "u") = false
        ∧ ∀ (p : String) (st2 : Storage),
          ((transcribePhase http200 demoCfg demoOpts p st2).storage).pathExists p
            = false) :=
  ⟨by decide,
   C1_artifact_absent_after_return demoDec 0 http200 demoCfg "s" "u"
     demoOpts none [[1]] []
     ((speech_to_text demoDec 0 http200 demoCfg "s" "u" demoOpts none
       [[1]] []).toOption.getD ⟨(none, none), [], none⟩)
     (by decide)⟩

/-- C2: for every decoder behaviour and packet sequence, the number of
PCM frames accumulated by `save_audio_to_file` (whose concatenation is
what `writeframes` receives) equals the number of packets that decode
successfully: a failed decode contributes zero frames and decoding of
the remaining packets continues. -/
theorem C2_frames_eq_successful_decodes {S : Type} (dec : DecodeFn S)
    (s0 : S) (output_dir session_id uuid : String)
    (opus_data : List Packet) (st : Storage) :
    ∃ w : WavFile,
      save_audio_to_file dec s0 output_dir session_id uuid none
          opus_data st
        = .ok (audioFilePath output_dir session_id uuid,
            st.write (audioFilePath output_dir session_id uuid) w)
      ∧ w.frames = ((decodeLoop dec s0 opus_data).2).flatten
      ∧ (decodeLoop dec s0 opus_data).2.length
          = countSuccess dec s0 opus_data :=
  ⟨{ nchannels := 1, sampwidth := 2, framerate := 16000,
     frames := ((decodeLoop dec s0 opus_data).2).flatten },
   rfl, rfl, decodeLoop_length dec s0 opus_data⟩

/-- C3: for every remote response with HTTP status 200,
`speech_to_text` takes the parsed JSON body, extracts the `text` field
defaulting to the empty string when absent, strips surrounding
whitespace, and returns `(trimmed text, None)`. -/
theorem C3_status_200_returns_trimmed_text {S : Type} (dec : DecodeFn S)
    (s0 : S) (http : HttpFn) (cfg : Config) (session_id uuid : String)
    (o : TranscriptionOptions) (opus_data : List Packet) (st : Storage)
    (resp : HttpResp) (fields : List (String × String))
    (hresp : http (requestOf cfg o
      (audioFilePath cfg.output_dir session_id uuid)) = .ok resp)
    (h200 : resp.status_code = 200)
    (hjson : resp.jsonFields = .ok fields) :
    (speech_to_text dec s0 http cfg session_id uuid o none opus_data
      st).map RunResult.outcome
      = .ok (some (pyStrip ((fields.lookup "text").getD "")), none) := by
  simp [speech_to_text, save_audio_to_file, transcribePhase,
    pathExists_write, hresp, h200, hjson, Except.map]

/-- Witness for C3: the mocked remote answers 200 with body
`{"text": " hello world "}` and the pipeline returns
`("hello world", None)`. -/
theorem C3_witness :
    (http200 (requestOf demoCfg demoOpts
        (audioFilePath demoCfg.output_dir "s" "u")) = .ok resp200
      ∧ resp200.status_code = 200
      ∧ resp200.jsonFields = .ok [("text", " hello world ")])
    ∧ (speech_to_text demoDec 0 http200 demoCfg "s" "u" demoOpts none
        [[1]] []).map RunResult.outcome
        = .ok (some "hello world", none) := by
  refine ⟨⟨rfl, rfl, rfl⟩, ?_⟩
  have h := C3_status_200_returns_trimmed_text demoDec 0 http200 demoCfg
    "s" "u" demoOpts [[1]] [] resp200 [("text", " hello world ")]
    rfl rfl rfl
  have e : pyStrip ((([("text", " hello world ")] :
      List (String × String)).lookup "text").getD "") = "hello world" := by
    decide
  rw [e] at h
  exact h

/-- C4 counterexample: an exception raised inside the WAV-writing
block of `save_audio_to_file` (which runs before the try block of
`speech_to_text`) propagates to the caller instead of being converted
into a `(text, error)` pair. -/
theorem C4_counterexample :
    speech_to_text demoDec 0 http200 demoCfg "s" "u" demoOpts
        (some "wav write error") [[1]] []
      = .error "wav write error"
    ∧ ¬ ∃ r : RunResult,
        speech_to_text demoDec 0 http200 demoCfg "s" "u" demoOpts
          (some "wav write error") [[1]] [] = .ok r := by
  constructor
  · rfl
  · rintro ⟨r, hr⟩
    simp [speech_to_text, save_audio_to_file] at hr

/-- C4 amended: whenever the decode-and-write step completes without
raising, `speech_to_text` returns a two-value `(text, error)` outcome
for every HTTP behaviour — every error kind arising in the request
phase (transport exception, non-200 status, JSON-parse exception) is
caught at the pipeline boundary and converted into the pair; an
exception in the decode-and-write step itself, however, propagates
uncaught. -/
theorem C4_amended_request_phase_never_raises {S : Type}
    (dec : DecodeFn S) (s0 : S) (http : HttpFn) (cfg : Config)
    (session_id uuid : String) (o : TranscriptionOptions)
    (opus_data : List Packet) (st : Storage) :
    ∃ r : RunResult,
      speech_to_text dec s0 http cfg session_id uuid o none opus_data st
        = .ok r :=
  ⟨_, rfl⟩

/-- C6: for every remote response whose status is not 200,
`speech_to_text` returns `(None, body)` with the response body text
surfaced verbatim. -/
theorem C6_non_200_returns_body {S : Type} (dec : DecodeFn S) (s0 : S)
    (http : HttpFn) (cfg : Config) (session_id uuid : String)
    (o : TranscriptionOptions) (opus_data : List Packet) (st : Storage)
    (resp : HttpResp)
    (hresp : http (requestOf cfg o
      (audioFilePath cfg.output_dir session_id uuid)) = .ok resp)
    (hne : resp.status_code ≠ 200) :
    (speech_to_text dec s0 http cfg session_id uuid o none opus_data
      st).map RunResult.outcome
      = .ok (none, some resp.text) := by
  simp [speech_to_text, save_audio_to_file, transcribePhase,
    pathExists_write, hresp, hne, Except.map]

/-- Witness for C6: the mocked remote answers 500 with body
`rate limited` and the pipeline returns `(None, "rate limited")`. -/
theorem C6_witness :
    (http500 (requestOf demoCfg demoOpts
        (audioFilePath demoCfg.output_dir "s" "u")) = .ok resp500
      ∧ resp500.status_code ≠ 200)
    ∧ (speech_to_text demoDec 0 http500 demoCfg "s" "u" demoOpts none
        [[1]] []).map RunResult.outcome
        = .ok (none, some "rate limited") := by
  refine ⟨⟨rfl, by decide⟩, ?_⟩
  exact C6_non_200_returns_body demoDec 0 http500 demoCfg "s" "u"
    demoOpts [[1]] [] resp500 rfl (by decide)

/-- C7: if the artifact file does not exist on storage after the
decode-and-write step, the pipeline short-circuits with the outcome
`(None, None)`, leaves storage untouched, and no request is built or
sent. -/
theorem C7_missing_artifact_short_circuits (http : HttpFn)
    (cfg : Config) (o : TranscriptionOptions) (audio_file_path : String)
    (st : Storage) (h : st.pathExists audio_file_path = false) :
    transcribePhase http cfg o audio_file_path st
      = { outcome := (none, none), storage := st, sent := none } := by
  simp [transcribePhase, h]

/-- Witness for C7: on empty storage the existence check fails and the
phase returns `(None, None)` with nothing sent. -/
theorem C7_witness :
    (Storage.pathExists [] "temp/audio/missing.wav" = false)
    ∧ transcribePhase http200 demoCfg demoOpts
        "temp/audio/missing.wav" []
        = { outcome := (none, none), storage := [], sent := none } :=
  ⟨by decide,
   C7_missing_artifact_short_circuits http200 demoCfg demoOpts
     "temp/audio/missing.wav" [] (by decide)⟩

/-- C5 counterexample: on a concrete run the request that was sent
carries the API key under the header name `xi-api-key`, and looking up
a header named `api-key` finds nothing — the claim that the key is
carried in a header named `api-key` is false. -/
theorem C5_counterexample :
    (speech_to_text demoDec 0 http200 demoCfg "s" "u" demoOpts none
        [[1]] []).map (fun r => r.sent.map Request.headers)
      = .ok (some [("xi-api-key", "secret")])
    ∧ ([("xi-api-key", "secret")] :
        List (String × String)).lookup "api-key" = none := by
  constructor
  · decide
  · decide

/-- C5 amended: for every transcription request sent by
`speech_to_text`, the HTTP POST carries the configured API key in a
request header named `xi-api-key` (and in no other header). -/
theorem C5_amended_xi_api_key_header {S : Type} (dec : DecodeFn S)
    (s0 : S) (http : HttpFn) (cfg : Config) (session_id uuid : String)
    (o : TranscriptionOptions) (wavWriteErr : Option String)
    (opus_data : List Packet) (st : Storage) (r : RunResult)
    (req : Request)
    (h : speech_to_text dec s0 http cfg session_id uuid o wavWriteErr
      opus_data st = .ok r)
    (hs : r.sent = some req) :
    req.headers = [("xi-api-key", cfg.api_key)] := by
  cases wavWriteErr with
  | some e => simp [speech_to_text, save_audio_to_file] at h
  | none =>
    simp only [speech_to_text, save_audio_to_file, Except.ok.injEq] at h
    subst h
    simp only [transcribePhase, pathExists_write] at hs
    simp at hs
    subst hs
    rfl

/-- Witness for C5 amended: the concrete run sends its request with
exactly the header `xi-api-key: secret`. -/
theorem C5_witness :
    (speech_to_text demoDec 0 http200 demoCfg "s" "u" demoOpts none
        [[1]] [] = .ok
          ((speech_to_text demoDec 0 http200 demoCfg "s" "u" demoOpts
            none [[1]] []).toOption.getD ⟨(none, none), [], none⟩)
      ∧ ((speech_to_text demoDec 0 http200 demoCfg "s" "u" demoOpts
            none [[1]] []).toOption.getD ⟨(none, none), [], none⟩).sent
          = some (requestOf demoCfg demoOpts
              (audioFilePath demoCfg.output_dir "s" "u")))
    ∧ (requestOf demoCfg demoOpts
        (audioFilePath demoCfg.output_dir "s" "u")).headers
        = [("xi-api-key", demoCfg.api_key)] :=
  ⟨⟨by decide, by decide⟩,
   C5_amended_xi_api_key_header demoDec 0 http200 demoCfg "s" "u"
     demoOpts none [[1]] []
     ((speech_to_text demoDec 0 http200 demoCfg "s" "u" demoOpts none
       [[1]] []).toOption.getD ⟨(none, none), [], none⟩)
     (requestOf demoCfg demoOpts
       (audioFilePath demoCfg.output_dir "s" "u"))
     (by decide) (by decide)⟩

/-- C8: for every decoder behaviour whose successful frames are all
`frameBytes = 960 * 2 = 1920` bytes (as `decoder.decode(packet, 960)`
yields for 16-bit mono), the container written by `save_audio_to_file`
has total byte length `wavHeaderSize + successful packet count * 1920`. -/
theorem C8_container_byte_length {S : Type} (dec : DecodeFn S) (s0 : S)
    (output_dir session_id uuid : String) (opus_data : List Packet)
    (st : Storage)
    (hf : ∀ (s : S) (p : Packet) (f : Pcm),
      (dec s p).2 = some f → f.length = frameBytes) :
    ∃ w : WavFile,
      save_audio_to_file dec s0 output_dir session_id uuid none
          opus_data st
        = .ok (audioFilePath output_dir session_id uuid,
            st.write (audioFilePath output_dir session_id uuid) w)
      ∧ w.byteLength
          = wavHeaderSize + countSuccess dec s0 opus_data * frameBytes
      ∧ frameBytes = 960 * 2 :=
  ⟨{ nchannels := 1, sampwidth := 2, framerate := 16000,
     frames := ((decodeLoop dec s0 opus_data).2).flatten },
   rfl,
   by simp [WavFile.byteLength,
     decodeLoop_flatten_length dec hf s0 opus_data],
   rfl⟩

/-- Witness for C8: a decoder producing all-zero (silence) 1920-byte
frames, three packets of which one is corrupt: the container length is
`wavHeaderSize + 2 * frameBytes`. -/
theorem C8_witness :
    (∀ (s : Nat) (p : Packet) (f : Pcm),
      (silentDec s p).2 = some f → f.length = frameBytes)
    ∧ countSuccess silentDec 0 [[1], [2], []] = 2
    ∧ ∃ w : WavFile,
        save_audio_to_file silentDec 0 "temp/audio" "s" "u" none
            [[1], [2], []] []
          = .ok (audioFilePath "temp/audio" "s" "u",
              Storage.write [] (audioFilePath "temp/audio" "s" "u") w)
        ∧ w.byteLength
            = wavHeaderSize + countSuccess silentDec 0 [[1], [2], []]
                * frameBytes
        ∧ frameBytes = 960 * 2 := by
  have hf : ∀ (s : Nat) (p : Packet) (f : Pcm),
      (silentDec s p).2 = some f → f.length = frameBytes := by
    intro s p f h
    simp only [silentDec] at h
    by_cases hp : p.length == 0
    · simp [hp] at h
    · simp [hp] at h
      simp [← h]
  exact ⟨hf, by decide,
    C8_container_byte_length silentDec 0 "temp/audio" "s" "u"
      [[1], [2], []] [] hf⟩

/-- C9: when `save_audio_to_file` returns normally it returns exactly
the path at which it just created the container file, so under the
total model of storage the existence check succeeds, the request is
always built and sent, and the `(None, None)` precondition-failure
branch is unreachable. -/
theorem C9_precondition_branch_unreachable {S : Type} (dec : DecodeFn S)
    (s0 : S) (http : HttpFn) (cfg : Config) (session_id uuid : String)
    (o : TranscriptionOptions) (opus_data : List Packet) (st : Storage) :
    ∃ w : WavFile,
      save_audio_to_file dec s0 cfg.output_dir session_id uuid none
          opus_data st
        = .ok (audioFilePath cfg.output_dir session_id uuid,
            st.write (audioFilePath cfg.output_dir session_id uuid) w)
      ∧ (st.write (audioFilePath cfg.output_dir session_id uuid)
          w).pathExists (audioFilePath cfg.output_dir session_id uuid)
          = true
      ∧ (speech_to_text dec s0 http cfg session_id uuid o none opus_data
          st).map RunResult.sent
          = .ok (some (requestOf cfg o
              (audioFilePath cfg.output_dir session_id uuid)))
      ∧ (speech_to_text dec s0 http cfg session_id uuid o none opus_data
          st).map RunResult.outcome ≠ .ok (none, none) := by
  refine ⟨_, rfl, pathExists_write st _ _, ?_, ?_⟩
  · simp [speech_to_text, save_audio_to_file, transcribePhase,
      pathExists_write, Except.map]
  · simp only [speech_to_text, save_audio_to_file, transcribePhase,
      pathExists_write, Except.map]
    cases hh : http (requestOf cfg o
        (audioFilePath cfg.output_dir session_id uuid)) with
    | error e => simp [hh]
    | ok resp =>
      by_cases h200 : resp.status_code == 200
      · cases hj : resp.jsonFields with
        | ok fields => simp [hh, h200, hj]
        | error e => simp [hh, h200, hj]
      · simp [hh, h200]

/-- Value found for `language_code` in the form data: present exactly
when the option is truthy. -/
theorem lookup_language_code (m : String) (o : TranscriptionOptions) :
    (buildFormData m o).lookup "language_code"
      = if truthyOptStr o.language_code
          then some (o.language_code.getD "") else none := by
  by_cases h1 : truthyOptStr o.language_code <;>
    by_cases h2 : truthyOptInt o.num_speakers <;>
      simp [buildFormData, h1, h2, List.lookup]

/-- Value found for `num_speakers` in the form data: present exactly
when the option is truthy. -/
theorem lookup_num_speakers (m : String) (o : TranscriptionOptions) :
    (buildFormData m o).lookup "num_speakers"
      = if truthyOptInt o.num_speakers
          then some (toString (o.num_speakers.getD 0)) else none := by
  by_cases h1 : truthyOptStr o.language_code <;>
    by_cases h2 : truthyOptInt o.num_speakers <;>
      simp [buildFormData, h1, h2, List.lookup]

/-- C10: `language_code` and `num_speakers` are included in the
form data of the request only when the supplied value is truthy: passing
`num_speakers = 0` or `language_code = ""` produces exactly the
request produced when the option is absent, and each field is present
in the form data precisely when the option is truthy. -/
theorem C10_falsy_options_omitted (cfg : Config)
    (o : TranscriptionOptions) (audio_file_path : String) :
    requestOf cfg { o with language_code := some "" } audio_file_path
      = requestOf cfg { o with language_code := none } audio_file_path
    ∧ requestOf cfg { o with num_speakers := some 0 } audio_file_path
      = requestOf cfg { o with num_speakers := none } audio_file_path
    ∧ ((buildFormData cfg.model_id o).lookup "language_code").isSome
        = truthyOptStr o.language_code
    ∧ ((buildFormData cfg.model_id o).lookup "num_speakers").isSome
        = truthyOptInt o.num_speakers := by
  refine ⟨?_, ?_, ?_, ?_⟩
  · simp [requestOf, buildFormData, truthyOptStr]
  · simp [requestOf, buildFormData, truthyOptInt]
  · rw [lookup_language_code]
    by_cases h : truthyOptStr o.language_code <;> simp [h]
  · rw [lookup_num_speakers]
    by_cases h : truthyOptInt o.num_speakers <;> simp [h]

end ElevenLabsASR
